import Mathlib

/-! Database credential backends: factory, statement templating and the mock plugin.

A shallow embedding of `dbs/db.go` (backend factory and `queryHelper`) and of the
`mockPlugin` backend of `dbplugin/plugin_test.go`, with the properties proved about them.

Conventions of the embedding:

* a Go `string` is a Lean `String` (a sequence of Unicode scalar values, i.e. valid UTF-8);
* a Go `error` is `Option error`, `none` being the `nil` error;
* a Go `map[string]V` is `Option (List (String × V))`: `none` is the `nil` map, `some l`
  an allocated map whose entries are listed in `l`;
* a method with a pointer receiver takes the receiver state and returns the new state;
* a call that can hit a run-time panic returns an `Exec`.
-/

set_option autoImplicit false

/-! ## Go run-time model -/

/-- Go `error` values as produced by `errors.New`: compared by their message. -/
structure error where
  msg : String
  deriving DecidableEq, Repr

/-- The function `errors.New`. -/
def errors.New (text : String) : error := ⟨text⟩

/-- Outcome of running a Go function body: it returns a value or the goroutine panics. -/
inductive Exec (α : Type) where
  | returned (a : α) : Exec α
  | panicked (msg : String) : Exec α
  deriving DecidableEq, Repr

/-- A Go `map[string]V` value; `none` is the `nil` map. -/
abbrev GoMap (V : Type) := Option (List (String × V))

namespace GoMap

variable {V : Type}

/-- The expression `make(map[string]V)`: an allocated map without entries. -/
def make : GoMap V := some []

/-- The "comma ok" read `v, ok := m[k]`: `none` when `ok` is false. Reading a `nil` map
is allowed and finds nothing. -/
def lookup (m : GoMap V) (k : String) : Option V :=
  match m with
  | none => none
  | some l => (l.find? (fun e => e.1 == k)).map Prod.snd

/-- Whether `k` is a key of the map (the `ok` of `_, ok := m[k]`). -/
def contains (m : GoMap V) (k : String) : Bool := (lookup m k).isSome

/-- The statement `m[k] = v`: panics on a `nil` map, otherwise sets the entry of `k`. -/
def assign (m : GoMap V) (k : String) (v : V) : Exec (GoMap V) :=
  match m with
  | none => .panicked "assignment to entry in nil map"
  | some l => .returned (some ((k, v) :: l.filter (fun e => e.1 != k)))

/-- The statement `delete(m, k)`: a no-op on a `nil` map or an absent key. -/
def delete (m : GoMap V) (k : String) : GoMap V :=
  match m with
  | none => none
  | some l => some (l.filter (fun e => e.1 != k))

end GoMap

/-- An instant of `time.Time`: seconds and nanoseconds since January 1, year 1, 00:00:00 UTC. -/
structure Time where
  sec : Int
  nsec : Nat
  deriving DecidableEq, Repr

/-- The method `time.Time.IsZero`: the instant is January 1, year 1, 00:00:00 UTC. -/
def Time.IsZero (t : Time) : Bool := t.sec == 0 && t.nsec == 0

/-! ## `dbplugin/plugin_test.go`: the mock backend -/

/-- Statements set in role creation and passed into the database type's functions. -/
structure Statements where
  CreationStatements : String
  RevocationStatements : String
  RollbackStatements : String
  RenewStatements : String
  deriving DecidableEq, Repr

/-- The type `dbplugin.UsernameConfig`. -/
structure UsernameConfig where
  DisplayName : String
  RoleName : String
  deriving DecidableEq, Repr

/-- The type `mockPlugin`: its only field is the users map. -/
structure mockPlugin where
  users : GoMap (List String)
  deriving DecidableEq, Repr

/-- What `CreateUser` returns: `(username, password, err)`. -/
structure CreateUserReturn where
  username : String
  password : String
  err : Option error
  deriving DecidableEq, Repr

namespace mockPlugin

/-- `mockPlugin.CreateUser`. The value stored in the map is `[]string{password}`, where the
named result `password` still holds its zero value `""`. -/
def CreateUser (m : mockPlugin) (_statements : Statements) (usernameConf : UsernameConfig)
    (expiration : Time) : Exec (CreateUserReturn × mockPlugin) :=
  let err := errors.New "err"
  if usernameConf.DisplayName == "" || expiration.IsZero then
    .returned (⟨"", "", some err⟩, m)
  else if GoMap.contains m.users usernameConf.DisplayName then
    .returned (⟨"", "", some err⟩, m)
  else
    match GoMap.assign m.users usernameConf.DisplayName [""] with
    | .panicked msg => .panicked msg
    | .returned users => .returned (⟨usernameConf.DisplayName, "test", none⟩, { users := users })

/-- `mockPlugin.RenewUser`. -/
def RenewUser (m : mockPlugin) (_statements : Statements) (username : String)
    (expiration : Time) : Exec (Option error × mockPlugin) :=
  let err := errors.New "err"
  if username == "" || expiration.IsZero then
    .returned (some err, m)
  else if !GoMap.contains m.users username then
    .returned (some err, m)
  else
    .returned (none, m)

/-- `mockPlugin.RevokeUser`. -/
def RevokeUser (m : mockPlugin) (_statements : Statements) (username : String) :
    Exec (Option error × mockPlugin) :=
  let err := errors.New "err"
  if username == "" then
    .returned (some err, m)
  else if !GoMap.contains m.users username then
    .returned (some err, m)
  else
    .returned (none, { users := GoMap.delete m.users username })

/-- `mockPlugin.Close`. -/
def Close (_m : mockPlugin) : Exec (Option error × mockPlugin) :=
  .returned (none, { users := none })

end mockPlugin

/-! ## `dbs/db.go`: the backend factory -/

/-- The constant `postgreSQLTypeName`. -/
def postgreSQLTypeName : String := "postgres"

/-- The constant `mySQLTypeName`. -/
def mySQLTypeName : String := "mysql"

/-- The constant `cassandraTypeName`. -/
def cassandraTypeName : String := "cassandra"

/-- The constant `pluginTypeName`. -/
def pluginTypeName : String := "plugin"

/-- The sentinel `ErrUnsupportedDatabaseType`. -/
def ErrUnsupportedDatabaseType : error := errors.New "Unsupported database type"

/-- A value of type `interface{}` as found in connection details. -/
inductive GoValue where
  | nil : GoValue
  | int (n : Int) : GoValue
  | str (s : String) : GoValue
  | bool (b : Bool) : GoValue
  deriving DecidableEq, Repr

/-- The type `DatabaseConfig`; `MaxConnectionLifetime` is a `time.Duration` in nanoseconds. -/
structure DatabaseConfig where
  DatabaseType : String
  ConnectionDetails : GoMap GoValue
  MaxOpenConnections : Int
  MaxIdleConnections : Int
  MaxConnectionLifetime : Int
  PluginCommand : String
  PluginChecksum : String
  deriving DecidableEq, Repr

/-- The type `sqlConnectionProducer`, with the one field `BuiltinFactory` sets. -/
structure sqlConnectionProducer where
  config : DatabaseConfig
  deriving DecidableEq, Repr

/-- The type `sqlCredentialsProducer`, with the fields `BuiltinFactory` sets. -/
structure sqlCredentialsProducer where
  displayNameLen : Int
  usernameLen : Int
  deriving DecidableEq, Repr

/-- The type `cassandraConnectionProducer`, with the one field `BuiltinFactory` sets. -/
structure cassandraConnectionProducer where
  config : DatabaseConfig
  deriving DecidableEq, Repr

/-- The type `cassandraCredentialsProducer`, built without fields. -/
structure cassandraCredentialsProducer where
  deriving DecidableEq, Repr

/-- The implementations of the interface `DatabaseType` that the factories return. The
last one stands for the backend proxy handed back by `newPluginClient`, known here only
through an opaque handle. -/
inductive DatabaseType where
  | PostgreSQL (ConnectionProducer : sqlConnectionProducer)
      (CredentialsProducer : sqlCredentialsProducer) : DatabaseType
  | MySQL (ConnectionProducer : sqlConnectionProducer)
      (CredentialsProducer : sqlCredentialsProducer) : DatabaseType
  | Cassandra (ConnectionProducer : cassandraConnectionProducer)
      (CredentialsProducer : cassandraCredentialsProducer) : DatabaseType
  | databaseMetricsMiddleware (next : DatabaseType) (typeStr : String) : DatabaseType
  | pluginClient (handle : Nat) : DatabaseType
  deriving DecidableEq, Repr

/-- Modelled from the spec: the method `Type()` of each backend, whose bodies lie outside
`db.go`. The spec has it return the stable family identifier, without side effects and
never failing; the middleware answers with the string it recorded. -/
def DatabaseType.Type_ : DatabaseType → String
  | .PostgreSQL _ _ => postgreSQLTypeName
  | .MySQL _ _ => mySQLTypeName
  | .Cassandra _ _ => cassandraTypeName
  | .databaseMetricsMiddleware _ typeStr => typeStr
  | .pluginClient _ => pluginTypeName

/-- What a factory returns: `(DatabaseType, error)`, `none` being `nil`. -/
structure FactoryReturn where
  db : Option DatabaseType
  err : Option error
  deriving DecidableEq, Repr

/-- The type `Factory`. A factory may launch a plugin subprocess, so it runs in a world of
type `σ` that it may change. -/
abbrev Factory (σ : Type) := DatabaseConfig → σ → FactoryReturn × σ

/-- The signature of `newPluginClient(command, checksum)`, defined outside `db.go`: it
launches the plugin subprocess (changing the world) and returns `(DatabaseType, error)`. -/
abbrev PluginLauncher (σ : Type) := String → String → σ → FactoryReturn × σ

/-- `BuiltinFactory`. -/
def BuiltinFactory {σ : Type} : Factory σ := fun conf w =>
  let wrap (dbType : DatabaseType) : FactoryReturn × σ :=
    -- Wrap with metrics middleware
    (⟨some (.databaseMetricsMiddleware dbType dbType.Type_), none⟩, w)
  if conf.DatabaseType = postgreSQLTypeName then
    let connProducer : sqlConnectionProducer := { config := conf }
    let credsProducer : sqlCredentialsProducer := { displayNameLen := 23, usernameLen := 63 }
    wrap (.PostgreSQL connProducer credsProducer)
  else if conf.DatabaseType = mySQLTypeName then
    let connProducer : sqlConnectionProducer := { config := conf }
    let credsProducer : sqlCredentialsProducer := { displayNameLen := 4, usernameLen := 16 }
    wrap (.MySQL connProducer credsProducer)
  else if conf.DatabaseType = cassandraTypeName then
    let connProducer : cassandraConnectionProducer := { config := conf }
    let credsProducer : cassandraCredentialsProducer := {}
    wrap (.Cassandra connProducer credsProducer)
  else
    (⟨none, some ErrUnsupportedDatabaseType⟩, w)

/-- `PluginFactory`, over the launcher `newPluginClient`. -/
def PluginFactory {σ : Type} (newPluginClient : PluginLauncher σ) : Factory σ := fun conf w =>
  if conf.PluginCommand = "" then
    (⟨none, some (errors.New "ERROR")⟩, w)
  else if conf.PluginChecksum = "" then
    (⟨none, some (errors.New "ERROR")⟩, w)
  else
    match newPluginClient conf.PluginCommand conf.PluginChecksum w with
    | (⟨_, some err⟩, w1) => (⟨none, some err⟩, w1)
    | (⟨db, none⟩, w1) => (⟨db, none⟩, w1)

/-- `DatabaseConfig.GetFactory`. -/
def DatabaseConfig.GetFactory {σ : Type} (newPluginClient : PluginLauncher σ)
    (dc : DatabaseConfig) : Factory σ :=
  if dc.DatabaseType = pluginTypeName then
    PluginFactory newPluginClient
  else
    BuiltinFactory

/-! ## `dbs/db.go`: statement templating -/

/-- Replacement of every non-overlapping occurrence of a non-empty `old`, scanning from the
left; `skip` counts the characters of a matched occurrence still to be passed over. -/
def strings.replaceScan (old new : List Char) : Nat → List Char → List Char
  | _, [] => []
  | skip + 1, _ :: cs => replaceScan old new skip cs
  | 0, c :: cs =>
    if old.isPrefixOf (c :: cs) then new ++ replaceScan old new (old.length - 1) cs
    else c :: replaceScan old new 0 cs

/-- The function `strings.Replace(s, old, new, -1)` of the Go library: all non-overlapping
occurrences of `old` are replaced by `new`; an empty `old` matches before every character
and at the end. -/
def strings.Replace (s old new : String) : String :=
  if old.data = [] then ⟨new.data ++ s.data.flatMap (fun c => c :: new.data)⟩
  else ⟨strings.replaceScan old.data new.data 0 s.data⟩

/-- The pattern `fmt.Sprintf("{{%s}}", k)`. -/
def placeholder (k : String) : String := "\x7b\x7b" ++ k ++ "\x7d\x7d"

/-- `queryHelper`: templates a query. The map `data` is given by its entries in the order
in which the `range` loop visits them. -/
def queryHelper (tpl : String) (data : List (String × String)) : String :=
  data.foldl (fun tpl kv => strings.Replace tpl (placeholder kv.1) kv.2) tpl

/-- The function `strings.Contains`: `substr` occurs in `s`. -/
def strings.Contains (s substr : String) : Prop := substr.data <:+: s.data

instance (s substr : String) : Decidable (strings.Contains s substr) :=
  inferInstanceAs (Decidable (substr.data <:+: s.data))

/-! ### Templates as sequences of segments -/

/-- The string has neither an opening nor a closing brace. -/
def braceFree (s : String) : Bool := s.data.all (fun c => c != '{' && c != '}')

/-- A piece of a template: literal text, or a placeholder written `{{key}}`. -/
inductive Segment where
  | lit (text : String) : Segment
  | hole (key : String) : Segment
  deriving DecidableEq, Repr

/-- The text of a segment inside the template. -/
def Segment.render : Segment → String
  | .lit text => text
  | .hole key => placeholder key

/-- The template made of the given segments: their texts, concatenated. -/
def renderTemplate : List Segment → String
  | [] => ""
  | seg :: rest => seg.render ++ renderTemplate rest

/-- Literal text and placeholder keys are free of braces. -/
def Segment.wellFormed : Segment → Bool
  | .lit text => braceFree text
  | .hole key => braceFree key

/-- The value the map `data` holds for `k`, if any. -/
def valueOf (data : List (String × String)) (k : String) : Option String :=
  (data.find? (fun kv => kv.1 == k)).map Prod.snd

/-- What a segment becomes under simultaneous substitution: a placeholder whose key is in
the map becomes the value of that key, everything else stays verbatim. -/
def Segment.substitute (data : List (String × String)) : Segment → String
  | .lit text => text
  | .hole key =>
    match valueOf data key with
    | some v => v
    | none => placeholder key

/-- The simultaneous substitution of the specification (`Expand`): the same concatenation,
each segment substituted on its own. -/
def substitute (data : List (String × String)) : List Segment → String
  | [] => ""
  | seg :: rest => seg.substitute data ++ substitute data rest

/-- One key filled in: the placeholders of key `k` become the literal `v`. -/
def Segment.fill (k v : String) : Segment → Segment
  | .lit text => .lit text
  | .hole key => if key = k then .lit v else .hole key

/-! ## `dbplugin/plugin_test.go`: initialisation and sequences of calls -/

/-- The keys of a map, each listed once; a `nil` map has none. -/
def GoMap.keys {V : Type} (m : GoMap V) : List String :=
  match m with
  | none => []
  | some l => (l.map Prod.fst).dedup

/-- The builtin `len(m)`: the number of entries of the map, one per key. -/
def GoMap.len {V : Type} (m : GoMap V) : Nat := (GoMap.keys m).length

/-- `mockPlugin.Initialize`. -/
def mockPlugin.Initialize (m : mockPlugin) (conf : GoMap GoValue) (_verifyConnection : Bool) :
    Exec (Option error × mockPlugin) :=
  let err := errors.New "err"
  if GoMap.len conf != 1 then
    .returned (some err, m)
  else
    .returned (none, m)

/-- A call of one of the lifecycle methods of the backend, with its arguments. -/
inductive Call where
  | Initialize (conf : GoMap GoValue) (verifyConnection : Bool) : Call
  | CreateUser (statements : Statements) (usernameConf : UsernameConfig)
      (expiration : Time) : Call
  | RenewUser (statements : Statements) (username : String) (expiration : Time) : Call
  | RevokeUser (statements : Statements) (username : String) : Call
  | Close : Call
  deriving DecidableEq, Repr

/-- What the caller of a lifecycle method observes: the error of `Initialize`, `RenewUser`,
`RevokeUser` or `Close`, the three results of `CreateUser`, or a panic. -/
inductive Outcome where
  | status (err : Option error) : Outcome
  | created (ret : CreateUserReturn) : Outcome
  | panic (msg : String) : Outcome
  deriving DecidableEq, Repr

/-- The call is `Close`. -/
def Call.isClose : Call → Bool
  | .Close => true
  | _ => false

/-- The outcome is a panic. -/
def Outcome.isPanic : Outcome → Bool
  | .panic _ => true
  | _ => false

/-- Dispatch of one call to the method of the mock backend. -/
def mockPlugin.call (m : mockPlugin) : Call → Exec (Outcome × mockPlugin)
  | .Initialize conf verifyConnection =>
    match m.Initialize conf verifyConnection with
    | .returned (err, m1) => .returned (.status err, m1)
    | .panicked msg => .panicked msg
  | .CreateUser statements usernameConf expiration =>
    match m.CreateUser statements usernameConf expiration with
    | .returned (ret, m1) => .returned (.created ret, m1)
    | .panicked msg => .panicked msg
  | .RenewUser statements username expiration =>
    match m.RenewUser statements username expiration with
    | .returned (err, m1) => .returned (.status err, m1)
    | .panicked msg => .panicked msg
  | .RevokeUser statements username =>
    match m.RevokeUser statements username with
    | .returned (err, m1) => .returned (.status err, m1)
    | .panicked msg => .panicked msg
  | .Close =>
    match m.Close with
    | .returned (err, m1) => .returned (.status err, m1)
    | .panicked msg => .panicked msg

/-- A finite sequence of calls on one backend instance: the outcomes in order and the
final state. A panic ends the sequence (the goroutine serving the calls is gone). -/
def mockPlugin.run (m : mockPlugin) : List Call → List Outcome × mockPlugin
  | [] => ([], m)
  | c :: rest =>
    match m.call c with
    | .panicked msg => ([.panic msg], m)
    | .returned (o, m1) => ((o :: (run m1 rest).1), (run m1 rest).2)

/-! ### Histories of calls -/

/-- The event is a successful `CreateUser` that returned the username `u`. -/
def isCreateOf (u : String) : Call × Outcome → Bool
  | (.CreateUser _ _ _, .created ret) => ret.err.isNone && ret.username == u
  | _ => false

/-- The event is a successful `RevokeUser` of the username `u`. -/
def isRevokeOf (u : String) : Call × Outcome → Bool
  | (.RevokeUser _ username, .status err) => err.isNone && username == u
  | _ => false

/-- Some successful `CreateUser` of `u` in the history (oldest event first) is followed by
no successful `RevokeUser` of `u`; so is then the most recent one. -/
def createdNotRevoked (u : String) : List (Call × Outcome) → Bool
  | [] => false
  | ev :: later =>
    createdNotRevoked u later || (isCreateOf u ev && later.all (fun e => !isRevokeOf u e))

/-- The call with its `statements` and `RoleName` arguments blanked. -/
def Call.forget : Call → Call
  | .Initialize conf verifyConnection => .Initialize conf verifyConnection
  | .CreateUser _ usernameConf expiration =>
    .CreateUser ⟨"", "", "", ""⟩ ⟨usernameConf.DisplayName, ""⟩ expiration
  | .RenewUser _ username expiration => .RenewUser ⟨"", "", "", ""⟩ username expiration
  | .RevokeUser _ username => .RevokeUser ⟨"", "", "", ""⟩ username
  | .Close => .Close

/-! ## Lemmas on maps -/

namespace GoMap

variable {V : Type}

theorem contains_nil (k : String) : contains (none : GoMap V) k = false := rfl

theorem contains_make (k : String) : contains (make : GoMap V) k = false := rfl

theorem lookup_filter_self (l : List (String × V)) (k : String) :
    lookup (some (l.filter (fun e => e.1 != k))) k = none := by
  induction l with
  | nil => rfl
  | cons a t ih =>
    by_cases h : a.1 = k
    · simpa [List.filter_cons, h] using ih
    · simp only [lookup, Option.map_eq_none', List.find?_eq_none] at ih ⊢
      intro x hx
      have := List.mem_filter.mp hx
      simpa using this.2

theorem lookup_filter_other (l : List (String × V)) (k j : String) (h : j ≠ k) :
    lookup (some (l.filter (fun e => e.1 != k))) j = lookup (some l) j := by
  induction l with
  | nil => rfl
  | cons a t ih =>
    simp only [lookup] at ih ⊢
    by_cases hk : a.1 = k
    · have hj : (a.1 == j) = false := by
        simpa using fun hj : a.1 = j => h (hj.symm.trans hk)
      have hf : (a.1 != k) = false := by simpa using hk
      rw [List.filter_cons, hf, List.find?_cons, hj]
      simpa using ih
    · have hf : (a.1 != k) = true := by simpa using hk
      rw [List.filter_cons, hf]
      simp only [if_true, List.find?_cons]
      cases hj : a.1 == j
      · simpa using ih
      · rfl

theorem contains_assign (l : List (String × V)) (k : String) (v : V) :
    ∃ m, assign (some l) k v = .returned m ∧ contains m k = true ∧ lookup m k = some v := by
  refine ⟨_, rfl, ?_, ?_⟩ <;> simp [contains, lookup]

theorem contains_delete_self (m : GoMap V) (k : String) : contains (delete m k) k = false := by
  cases m with
  | none => rfl
  | some l => simp [contains, delete, lookup_filter_self]

theorem lookup_delete_other (m : GoMap V) (k j : String) (h : j ≠ k) :
    lookup (delete m k) j = lookup m j := by
  cases m with
  | none => rfl
  | some l => simpa [delete] using lookup_filter_other l k j h

theorem contains_true_allocated (m : GoMap V) (k : String) (h : contains m k = true) :
    ∃ l, m = some l := by
  cases m with
  | none => simp [contains, lookup] at h
  | some l => exact ⟨l, rfl⟩

end GoMap

/-! ## The mock backend: conditions of success and failure -/

namespace mockPlugin

theorem CreateUser_ok (l : List (String × List String)) (st : Statements)
    (conf : UsernameConfig) (e : Time) (hn : conf.DisplayName ≠ "") (he : e.IsZero = false)
    (hf : GoMap.contains (some l) conf.DisplayName = false) :
    CreateUser ⟨some l⟩ st conf e = .returned (⟨conf.DisplayName, "test", none⟩,
      ⟨some ((conf.DisplayName, [""]) :: l.filter (fun x => x.1 != conf.DisplayName))⟩) := by
  simp [CreateUser, hn, he, hf, GoMap.assign]

theorem CreateUser_err (m : mockPlugin) (st : Statements) (conf : UsernameConfig) (e : Time)
    (h : conf.DisplayName = "" ∨ e.IsZero = true ∨ GoMap.contains m.users conf.DisplayName = true) :
    CreateUser m st conf e = .returned (⟨"", "", some (errors.New "err")⟩, m) := by
  unfold CreateUser
  rcases h with h | h | h
  · simp [h]
  · simp [h]
  · simp [h]

theorem CreateUser_success_inv (m : mockPlugin) (st : Statements) (conf : UsernameConfig)
    (e : Time) (u p : String) (m1 : mockPlugin)
    (h : CreateUser m st conf e = .returned (⟨u, p, none⟩, m1)) :
    conf.DisplayName ≠ "" ∧ e.IsZero = false ∧ u = conf.DisplayName ∧ p = "test" ∧
      ∃ l, m = ⟨some l⟩ ∧ GoMap.contains (some l) conf.DisplayName = false ∧
        m1 = ⟨some ((conf.DisplayName, [""]) :: l.filter (fun x => x.1 != conf.DisplayName))⟩ := by
  by_cases hn : conf.DisplayName = ""
  · rw [CreateUser_err m st conf e (Or.inl hn)] at h
    simp at h
  by_cases he : e.IsZero = true
  · rw [CreateUser_err m st conf e (Or.inr (Or.inl he))] at h
    simp at h
  by_cases hc : GoMap.contains m.users conf.DisplayName = true
  · rw [CreateUser_err m st conf e (Or.inr (Or.inr hc))] at h
    simp at h
  have he' : e.IsZero = false := by simpa using he
  have hc' : GoMap.contains m.users conf.DisplayName = false := by simpa using hc
  obtain ⟨users⟩ := m
  cases users with
  | none => simp [CreateUser, hn, he', GoMap.contains, GoMap.lookup, GoMap.assign] at h
  | some l =>
    rw [CreateUser_ok l st conf e hn he' hc'] at h
    simp only [Exec.returned.injEq, Prod.mk.injEq, CreateUserReturn.mk.injEq] at h
    exact ⟨hn, he', h.1.1.symm, h.1.2.1.symm, l, rfl, hc', h.2.symm⟩

theorem RenewUser_eq (m : mockPlugin) (st : Statements) (u : String) (e : Time) :
    RenewUser m st u e = .returned
      (if u = "" ∨ e.IsZero = true ∨ GoMap.contains m.users u = false
        then some (errors.New "err") else none, m) := by
  unfold RenewUser
  by_cases hu : u = "" <;> by_cases he : e.IsZero = true <;>
    by_cases hc : GoMap.contains m.users u = true <;> simp [hu, he, hc]

theorem RevokeUser_eq (m : mockPlugin) (st : Statements) (u : String) :
    RevokeUser m st u = .returned
      (if u = "" ∨ GoMap.contains m.users u = false
        then (some (errors.New "err"), m) else (none, ⟨GoMap.delete m.users u⟩)) := by
  unfold RevokeUser
  by_cases hu : u = "" <;> by_cases hc : GoMap.contains m.users u = true <;> simp [hu, hc]

end mockPlugin

/-! ## The mock backend: lifecycle properties -/

/-- C1: on an allocated users map that does not yet hold a non-empty `DisplayName`, two
`CreateUser` calls in a row with that same `UsernameConfig` give success on the first call
(its expiration being non-zero) and an error on the second (whatever its expiration, so
in particular for a non-zero one), and the failed second call leaves the state exactly
as the first call made it. -/
theorem CreateUser_twice_conflict (l : List (String × List String)) (st1 st2 : Statements)
    (conf : UsernameConfig) (e1 e2 : Time)
    (hname : conf.DisplayName ≠ "")
    (hfresh : GoMap.contains (some l) conf.DisplayName = false)
    (h1 : e1.IsZero = false) :
    ∃ m1 : mockPlugin,
      mockPlugin.CreateUser ⟨some l⟩ st1 conf e1
        = .returned (⟨conf.DisplayName, "test", none⟩, m1) ∧
      ∃ r : CreateUserReturn,
        mockPlugin.CreateUser m1 st2 conf e2 = .returned (r, m1) ∧ r.err ≠ none := by
  refine ⟨_, mockPlugin.CreateUser_ok l st1 conf e1 hname h1 hfresh, ⟨"", "", some (errors.New "err")⟩, ?_, ?_⟩
  · apply mockPlugin.CreateUser_err
    right; right
    simp [GoMap.contains, GoMap.lookup]
  · simp

/-- Witness of C1: the scenario of `TestPlugin_CreateUser`, on the map of a fresh plugin. -/
theorem CreateUser_twice_conflict_witness :
    ∃ m1 : mockPlugin,
      mockPlugin.CreateUser ⟨some []⟩ ⟨"", "", "", ""⟩ ⟨"test", "test"⟩ ⟨63000000060, 0⟩
        = .returned (⟨"test", "test", none⟩, m1) ∧
      ∃ r : CreateUserReturn,
        mockPlugin.CreateUser m1 ⟨"", "", "", ""⟩ ⟨"test", "test"⟩ ⟨63000000120, 5⟩
          = .returned (r, m1) ∧ r.err ≠ none :=
  CreateUser_twice_conflict [] ⟨"", "", "", ""⟩ ⟨"", "", "", ""⟩ ⟨"test", "test"⟩
    ⟨63000000060, 0⟩ ⟨63000000120, 5⟩ (by decide) (by decide) (by decide)

/-- C2: if `CreateUser(conf)` succeeds returning the username `u`, then `RevokeUser(u)` on
the resulting state succeeds, and a following `CreateUser` with the same `conf` and a
non-zero expiration succeeds again and returns the same `u`: revocation frees the
identifier. -/
theorem RevokeUser_frees_identifier (m : mockPlugin) (st1 st2 st3 : Statements)
    (conf : UsernameConfig) (e1 e2 : Time) (u p : String) (m1 : mockPlugin)
    (h2 : e2.IsZero = false)
    (hcreate : mockPlugin.CreateUser m st1 conf e1 = .returned (⟨u, p, none⟩, m1)) :
    ∃ m2 : mockPlugin,
      mockPlugin.RevokeUser m1 st2 u = .returned (none, m2) ∧
      ∃ m3 : mockPlugin,
        mockPlugin.CreateUser m2 st3 conf e2 = .returned (⟨u, "test", none⟩, m3) := by
  obtain ⟨hn, _, hu, _, l, _, _, hm1⟩ :=
    mockPlugin.CreateUser_success_inv m st1 conf e1 u p m1 hcreate
  subst hu hm1
  refine ⟨⟨GoMap.delete (some ((conf.DisplayName, [""]) ::
    l.filter (fun x => x.1 != conf.DisplayName))) conf.DisplayName⟩, ?_, ?_⟩
  · rw [mockPlugin.RevokeUser_eq]
    simp [hn, GoMap.contains, GoMap.lookup]
  · exact ⟨_, mockPlugin.CreateUser_ok _ st3 conf e2 hn h2
      (GoMap.contains_delete_self (some ((conf.DisplayName, [""]) ::
        l.filter (fun x => x.1 != conf.DisplayName))) conf.DisplayName)⟩

/-- Witness of C2: the scenario of `TestPlugin_RevokeUser`. -/
theorem RevokeUser_frees_identifier_witness :
    ∃ m2 : mockPlugin,
      mockPlugin.RevokeUser ⟨some [("test", [""])]⟩ ⟨"", "", "", ""⟩ "test"
        = .returned (none, m2) ∧
      ∃ m3 : mockPlugin,
        mockPlugin.CreateUser m2 ⟨"", "", "", ""⟩ ⟨"test", "test"⟩ ⟨63000000120, 0⟩
          = .returned (⟨"test", "test", none⟩, m3) :=
  RevokeUser_frees_identifier ⟨GoMap.make⟩ ⟨"", "", "", ""⟩ ⟨"", "", "", ""⟩ ⟨"", "", "", ""⟩
    ⟨"test", "test"⟩ ⟨63000000060, 0⟩ ⟨63000000120, 0⟩ "test" "test"
    ⟨some [("test", [""])]⟩ (by decide) (by decide)

/-- C3: on an allocated users map `CreateUser` always returns, and it returns an error if
and only if `DisplayName` is empty, or the expiration is the zero instant, or `DisplayName`
is already a key of the users map; when it succeeds it returns exactly
`(DisplayName, "test")` and `DisplayName` is a key of the resulting map. On a fresh plugin,
`CreateUser` with `DisplayName` "test" returns `("test", "test", nil)`. -/
theorem CreateUser_fails_iff (l : List (String × List String)) (st : Statements)
    (conf : UsernameConfig) (e : Time) :
    (∃ (r : CreateUserReturn) (m1 : mockPlugin),
      mockPlugin.CreateUser ⟨some l⟩ st conf e = .returned (r, m1) ∧
      (r.err ≠ none ↔ (conf.DisplayName = "" ∨ e.IsZero = true ∨
        GoMap.contains (some l) conf.DisplayName = true)) ∧
      (r.err = none → r = ⟨conf.DisplayName, "test", none⟩ ∧
        GoMap.contains m1.users conf.DisplayName = true)) ∧
    (e.IsZero = false → ∃ m1 : mockPlugin,
      mockPlugin.CreateUser ⟨GoMap.make⟩ st ⟨"test", "test"⟩ e
        = .returned (⟨"test", "test", none⟩, m1)) := by
  constructor
  · by_cases h : conf.DisplayName = "" ∨ e.IsZero = true ∨
        GoMap.contains (some l) conf.DisplayName = true
    · refine ⟨_, _, mockPlugin.CreateUser_err ⟨some l⟩ st conf e h, ?_, ?_⟩
      · simp [h]
      · simp
    · have hn : conf.DisplayName ≠ "" := fun hn => h (Or.inl hn)
      have he : e.IsZero = false := by
        cases he : e.IsZero
        · rfl
        · exact absurd (Or.inr (Or.inl he)) h
      have hc : GoMap.contains (some l) conf.DisplayName = false := by
        cases hc : GoMap.contains (some l) conf.DisplayName
        · rfl
        · exact absurd (Or.inr (Or.inr hc)) h
      refine ⟨_, _, mockPlugin.CreateUser_ok l st conf e hn he hc, ?_, ?_⟩
      · simp [h]
      · intro _
        exact ⟨rfl, by simp [GoMap.contains, GoMap.lookup]⟩
  · intro he
    exact ⟨_, mockPlugin.CreateUser_ok [] st ⟨"test", "test"⟩ e (by decide) he rfl⟩

/-- Witness of C3: a map that already holds "bob"; creating "test" succeeds. -/
theorem CreateUser_fails_iff_witness :
    (∃ (r : CreateUserReturn) (m1 : mockPlugin),
      mockPlugin.CreateUser ⟨some [("bob", [""])]⟩ ⟨"", "", "", ""⟩ ⟨"test", "role"⟩ ⟨1, 0⟩
        = .returned (r, m1) ∧
      (r.err ≠ none ↔ (("test" : String) = "" ∨ Time.IsZero ⟨1, 0⟩ = true ∨
        GoMap.contains (some [("bob", [""])]) "test" = true)) ∧
      (r.err = none → r = ⟨"test", "test", none⟩ ∧
        GoMap.contains m1.users "test" = true)) ∧
    (Time.IsZero ⟨1, 0⟩ = false → ∃ m1 : mockPlugin,
      mockPlugin.CreateUser ⟨GoMap.make⟩ ⟨"", "", "", ""⟩ ⟨"test", "test"⟩ ⟨1, 0⟩
        = .returned (⟨"test", "test", none⟩, m1)) :=
  CreateUser_fails_iff [("bob", [""])] ⟨"", "", "", ""⟩ ⟨"test", "role"⟩ ⟨1, 0⟩

/-- C4: `RenewUser` always returns, and it returns an error if and only if the username is
empty, or the expiration is the zero instant, or the username is not a key of the users
map; so it fails for every username on a fresh plugin (nothing created yet), and after a
successful `CreateUser` returning `u` it succeeds on `u` for every non-zero expiration. -/
theorem RenewUser_fails_iff (m : mockPlugin) (st : Statements) (username : String) (e : Time) :
    (∃ r : Option error,
      mockPlugin.RenewUser m st username e = .returned (r, m) ∧
      (r ≠ none ↔ (username = "" ∨ e.IsZero = true ∨
        GoMap.contains m.users username = false))) ∧
    (∃ err : error,
      mockPlugin.RenewUser ⟨GoMap.make⟩ st username e = .returned (some err, ⟨GoMap.make⟩)) ∧
    (∀ (m0 : mockPlugin) (st0 : Statements) (conf : UsernameConfig) (e0 : Time) (p : String),
      mockPlugin.CreateUser m0 st0 conf e0 = .returned (⟨username, p, none⟩, m) →
      e.IsZero = false →
      mockPlugin.RenewUser m st username e = .returned (none, m)) := by
  refine ⟨⟨_, mockPlugin.RenewUser_eq m st username e, ?_⟩, ⟨errors.New "err", ?_⟩, ?_⟩
  · by_cases h : username = "" ∨ e.IsZero = true ∨ GoMap.contains m.users username = false
    · simp [h]
    · simp [h]
  · rw [mockPlugin.RenewUser_eq]
    simp [GoMap.contains_make]
  · intro m0 st0 conf e0 p hcreate he
    obtain ⟨hn, _, hu, _, l, _, _, hm⟩ :=
      mockPlugin.CreateUser_success_inv m0 st0 conf e0 username p m hcreate
    subst hu hm
    rw [mockPlugin.RenewUser_eq]
    simp [hn, he, GoMap.contains, GoMap.lookup]

/-- Witness of C4: the scenario of `TestPlugin_RenewUser`, on the state left by creating
"test" on a fresh plugin. -/
theorem RenewUser_fails_iff_witness :
    mockPlugin.RenewUser ⟨some [("test", [""])]⟩ ⟨"", "", "", ""⟩ "test" ⟨63000000120, 0⟩
      = .returned (none, ⟨some [("test", [""])]⟩) :=
  (RenewUser_fails_iff ⟨some [("test", [""])]⟩ ⟨"", "", "", ""⟩ "test" ⟨63000000120, 0⟩).2.2
    ⟨GoMap.make⟩ ⟨"", "", "", ""⟩ ⟨"test", "test"⟩ ⟨63000000060, 0⟩ "test"
    (by decide) (by decide)

/-- C5: `RevokeUser` always returns, and it returns an error if and only if the username is
empty or is not a key of the users map; on failure the state is unchanged, and on success
the username is no longer a key while every other key keeps its entry. -/
theorem RevokeUser_fails_iff (m : mockPlugin) (st : Statements) (username : String) :
    ∃ (r : Option error) (m1 : mockPlugin),
      mockPlugin.RevokeUser m st username = .returned (r, m1) ∧
      (r ≠ none ↔ (username = "" ∨ GoMap.contains m.users username = false)) ∧
      (r ≠ none → m1 = m) ∧
      (r = none → GoMap.contains m1.users username = false ∧
        ∀ k : String, k ≠ username → GoMap.lookup m1.users k = GoMap.lookup m.users k) := by
  by_cases h : username = "" ∨ GoMap.contains m.users username = false
  · refine ⟨some (errors.New "err"), m, ?_, ?_, ?_, ?_⟩
    · rw [mockPlugin.RevokeUser_eq, if_pos h]
    · simp [h]
    · intro _; rfl
    · intro hr; cases hr
  · refine ⟨none, ⟨GoMap.delete m.users username⟩, ?_, ?_, ?_, ?_⟩
    · rw [mockPlugin.RevokeUser_eq, if_neg h]
    · simp [h]
    · intro hr; exact absurd rfl hr
    · intro _
      exact ⟨GoMap.contains_delete_self m.users username,
        fun k hk => GoMap.lookup_delete_other m.users username k hk⟩

/-- Witness of C5: revoking "test" from a map that holds "test" and "bob". -/
theorem RevokeUser_fails_iff_witness :
    ∃ (r : Option error) (m1 : mockPlugin),
      mockPlugin.RevokeUser ⟨some [("test", [""]), ("bob", [""])]⟩ ⟨"", "", "", ""⟩ "test"
        = .returned (r, m1) ∧
      (r ≠ none ↔ (("test" : String) = "" ∨
        GoMap.contains (some [("test", [""]), ("bob", [""])]) "test" = false)) ∧
      (r ≠ none → m1 = ⟨some [("test", [""]), ("bob", [""])]⟩) ∧
      (r = none → GoMap.contains m1.users "test" = false ∧
        ∀ k : String, k ≠ "test" →
          GoMap.lookup m1.users k
            = GoMap.lookup (some [("test", [""]), ("bob", [""])]) k) :=
  RevokeUser_fails_iff ⟨some [("test", [""]), ("bob", [""])]⟩ ⟨"", "", "", ""⟩ "test"

/-- C10, evaluated on the code: after `Close` on a fresh plugin, `RenewUser` and
`RevokeUser` return an error, but `CreateUser` with a non-empty `DisplayName` and a
non-zero expiration passes both guards (a read of the `nil` map finds no key) and then
panics on the assignment into the `nil` map that `Close` left. -/
theorem CreateUser_after_Close_panics :
    mockPlugin.Close ⟨GoMap.make⟩ = .returned (none, ⟨none⟩) ∧
    mockPlugin.RenewUser ⟨none⟩ ⟨"", "", "", ""⟩ "test" ⟨63000000060, 0⟩
      = .returned (some (errors.New "err"), ⟨none⟩) ∧
    mockPlugin.RevokeUser ⟨none⟩ ⟨"", "", "", ""⟩ "test"
      = .returned (some (errors.New "err"), ⟨none⟩) ∧
    mockPlugin.CreateUser ⟨none⟩ ⟨"", "", "", ""⟩ ⟨"test", "test"⟩ ⟨63000000060, 0⟩
      = .panicked "assignment to entry in nil map" := by
  decide

/-! ## The backend factory -/

/-- C6: for a config of the "plugin" family, `conf.GetFactory()(conf)` returns a nil backend
and an error whenever `PluginCommand` or `PluginChecksum` is empty, the same for every
launcher and with the world untouched (`newPluginClient` is not invoked, no subprocess is
launched); when both are non-empty the result is what
`newPluginClient(PluginCommand, PluginChecksum)` returns: its backend passed through when
its error is nil, its error with a nil backend otherwise. -/
theorem PluginFactory_requires_command_and_checksum {σ : Type}
    (newPluginClient : PluginLauncher σ) (conf : DatabaseConfig) (w : σ)
    (hfamily : conf.DatabaseType = "plugin") :
    ((conf.PluginCommand = "" ∨ conf.PluginChecksum = "") →
      ∃ err : error, ∀ launcher : PluginLauncher σ,
        conf.GetFactory launcher conf w = (⟨none, some err⟩, w)) ∧
    (conf.PluginCommand ≠ "" → conf.PluginChecksum ≠ "" →
      ∀ (db : Option DatabaseType) (err : Option error) (w1 : σ),
        newPluginClient conf.PluginCommand conf.PluginChecksum w = (⟨db, err⟩, w1) →
        (err = none → conf.GetFactory newPluginClient conf w = (⟨db, none⟩, w1)) ∧
        (∀ e : error, err = some e →
          conf.GetFactory newPluginClient conf w = (⟨none, some e⟩, w1))) := by
  have hget : ∀ launcher : PluginLauncher σ,
      conf.GetFactory launcher = PluginFactory launcher := by
    intro launcher
    simp [DatabaseConfig.GetFactory, hfamily, pluginTypeName]
  constructor
  · intro h
    refine ⟨errors.New "ERROR", fun launcher => ?_⟩
    rw [hget]
    unfold PluginFactory
    by_cases hc : conf.PluginCommand = ""
    · simp [hc]
    · have hs : conf.PluginChecksum = "" := h.resolve_left hc
      simp [hc, hs]
  · intro hc hs db err w1 hrun
    rw [hget]
    unfold PluginFactory
    constructor
    · intro herr
      subst herr
      simp [hc, hs, hrun]
    · intro e herr
      subst herr
      simp [hc, hs, hrun]

/-- Witness of C6: a launcher that counts its invocations and hands back a proxy; with a
command and a checksum the proxy is passed through and one launch is counted. -/
theorem PluginFactory_requires_command_and_checksum_witness :
    DatabaseConfig.GetFactory
        (fun _ _ n => ((⟨some (DatabaseType.pluginClient n), none⟩ : FactoryReturn), n + 1))
        ⟨"plugin", none, 0, 0, 0, "/bin/db-plugin", "ab12"⟩
        ⟨"plugin", none, 0, 0, 0, "/bin/db-plugin", "ab12"⟩ 0
      = (⟨some (DatabaseType.pluginClient 0), none⟩, 1) :=
  ((PluginFactory_requires_command_and_checksum
      (fun _ _ n => ((⟨some (DatabaseType.pluginClient n), none⟩ : FactoryReturn), n + 1))
      ⟨"plugin", none, 0, 0, 0, "/bin/db-plugin", "ab12"⟩ 0 (by decide)).2
    (by decide) (by decide) (some (DatabaseType.pluginClient 0)) none 1 rfl).1 rfl

/-- C7: `conf.GetFactory()(conf)` checks the family against "postgres", "mysql",
"cassandra" and "plugin": for any other `DatabaseType` the result is a nil backend with
`ErrUnsupportedDatabaseType` (and the world untouched); and `BuiltinFactory` succeeds,
with a non-nil backend, if and only if `DatabaseType` is exactly one of "postgres",
"mysql", "cassandra", failing with `ErrUnsupportedDatabaseType` otherwise. -/
theorem GetFactory_validates_family {σ : Type} (newPluginClient : PluginLauncher σ)
    (conf : DatabaseConfig) (w : σ) :
    (conf.DatabaseType ∉ ["postgres", "mysql", "cassandra", "plugin"] →
      conf.GetFactory newPluginClient conf w
        = (⟨none, some ErrUnsupportedDatabaseType⟩, w)) ∧
    ((BuiltinFactory conf w).1.err = none ↔
      conf.DatabaseType ∈ ["postgres", "mysql", "cassandra"]) ∧
    ((BuiltinFactory conf w).1.err = none → ∃ db : DatabaseType,
      BuiltinFactory conf w = (⟨some db, none⟩, w)) ∧
    ((BuiltinFactory conf w).1.err ≠ none →
      BuiltinFactory conf w = (⟨none, some ErrUnsupportedDatabaseType⟩, w)) := by
  by_cases h1 : conf.DatabaseType = "postgres"
  · simp [DatabaseConfig.GetFactory, BuiltinFactory, postgreSQLTypeName, h1]
  by_cases h2 : conf.DatabaseType = "mysql"
  · simp [DatabaseConfig.GetFactory, BuiltinFactory, postgreSQLTypeName, mySQLTypeName, h2]
  by_cases h3 : conf.DatabaseType = "cassandra"
  · simp [DatabaseConfig.GetFactory, BuiltinFactory, postgreSQLTypeName, mySQLTypeName,
      cassandraTypeName, h3]
  by_cases h4 : conf.DatabaseType = "plugin"
  · simp [BuiltinFactory, postgreSQLTypeName, mySQLTypeName, cassandraTypeName, h4]
  · simp [DatabaseConfig.GetFactory, BuiltinFactory, postgreSQLTypeName, mySQLTypeName,
      cassandraTypeName, pluginTypeName, h1, h2, h3, h4]

/-- Witness of C7: the family "Postgres" (capital P) is not a known one. -/
theorem GetFactory_validates_family_witness :
    DatabaseConfig.GetFactory (fun _ _ (n : Nat) => ((⟨none, none⟩ : FactoryReturn), n + 1))
        ⟨"Postgres", none, 0, 0, 0, "", ""⟩ ⟨"Postgres", none, 0, 0, 0, "", ""⟩ 0
      = (⟨none, some ErrUnsupportedDatabaseType⟩, 0) :=
  (GetFactory_validates_family (fun _ _ (n : Nat) => ((⟨none, none⟩ : FactoryReturn), n + 1))
    ⟨"Postgres", none, 0, 0, 0, "", ""⟩ 0).1 (by decide)

/-! ## Statement templating: the scan of `strings.Replace` -/

namespace strings

theorem replaceScan_skip (old new p t : List Char) :
    replaceScan old new p.length (p ++ t) = replaceScan old new 0 t := by
  induction p with
  | nil => rfl
  | cons c p ih => simpa [replaceScan] using ih

theorem replaceScan_match (old new t : List Char) (h : old ≠ []) :
    replaceScan old new 0 (old ++ t) = new ++ replaceScan old new 0 t := by
  cases old with
  | nil => exact absurd rfl h
  | cons c cs =>
    have hp : (c :: cs).isPrefixOf (c :: (cs ++ t)) = true := by
      simp
    rw [List.cons_append, replaceScan, if_pos hp]
    simpa using replaceScan_skip (c :: cs) new cs t

theorem replaceScan_step (old new : List Char) (c : Char) (cs : List Char)
    (h : old.isPrefixOf (c :: cs) = false) :
    replaceScan old new 0 (c :: cs) = c :: replaceScan old new 0 cs := by
  rw [replaceScan, if_neg (by simp [h])]

theorem replaceScan_free (a : Char) (old new p t : List Char) (h : ∀ c ∈ p, c ≠ a) :
    replaceScan (a :: old) new 0 (p ++ t) = p ++ replaceScan (a :: old) new 0 t := by
  induction p with
  | nil => rfl
  | cons c p ih =>
    have hc : c ≠ a := h c (List.mem_cons_self c p)
    have hp : (a :: old).isPrefixOf (c :: (p ++ t)) = false := by
      simp [List.isPrefixOf, Ne.symm hc]
    rw [List.cons_append, replaceScan_step _ _ _ _ hp,
      ih (fun x hx => h x (List.mem_cons_of_mem c hx)), List.cons_append]

theorem replaceScan_absent (old new s : List Char) (h : ¬ old <:+: s) :
    replaceScan old new 0 s = s := by
  induction s with
  | nil => rfl
  | cons c cs ih =>
    have hp : old.isPrefixOf (c :: cs) = false := by
      cases hb : old.isPrefixOf (c :: cs)
      · rfl
      · exact absurd (List.isPrefixOf_iff_prefix.mp hb).isInfix h
    have ht : ¬ old <:+: cs := fun hi => h (hi.trans (List.suffix_cons c cs).isInfix)
    rw [replaceScan_step _ _ _ _ hp, ih ht]

end strings

/-! ## Statement templating: placeholders in a well-formed template -/

theorem placeholder_data (k : String) :
    (placeholder k).data = '{' :: '{' :: (k.data ++ ['}', '}']) := by
  simp [placeholder, String.data_append]

theorem placeholder_data_ne_nil (k : String) : (placeholder k).data ≠ [] := by
  simp [placeholder_data]

theorem braceFree_iff (s : String) :
    braceFree s = true ↔ ∀ c ∈ s.data, c ≠ '{' ∧ c ≠ '}' := by
  simp [braceFree, List.all_eq_true]

/-- A brace-free key followed by the closing braces is read back unambiguously. -/
theorem key_closing_unique (k j t : List Char) (hk : ∀ c ∈ k, c ≠ '}') (hj : ∀ c ∈ j, c ≠ '}')
    (h : (k ++ ['}', '}']).isPrefixOf (j ++ '}' :: '}' :: t) = true) : k = j := by
  induction k generalizing j with
  | nil =>
    cases j with
    | nil => rfl
    | cons d j =>
      have hd : d ≠ '}' := hj d (List.mem_cons_self d j)
      simp [List.isPrefixOf, Ne.symm hd] at h
  | cons c k ih =>
    have hc : c ≠ '}' := hk c (List.mem_cons_self c k)
    cases j with
    | nil => simp [List.isPrefixOf, hc] at h
    | cons d j =>
      simp only [List.cons_append, List.isPrefixOf, Bool.and_eq_true, beq_iff_eq] at h
      rw [h.1, ih j (fun x hx => hk x (List.mem_cons_of_mem c hx))
        (fun x hx => hj x (List.mem_cons_of_mem d hx)) h.2]

theorem replaceScan_hole_same (k v : String) (t : List Char) :
    strings.replaceScan (placeholder k).data v.data 0 ((placeholder k).data ++ t)
      = v.data ++ strings.replaceScan (placeholder k).data v.data 0 t :=
  strings.replaceScan_match _ _ _ (placeholder_data_ne_nil k)

theorem replaceScan_hole_other_chars (k j v t : List Char) (hne : j ≠ k)
    (hk : ∀ c ∈ k, c ≠ '{' ∧ c ≠ '}') (hj : ∀ c ∈ j, c ≠ '{' ∧ c ≠ '}') :
    strings.replaceScan ('{' :: '{' :: (k ++ ['}', '}'])) v 0
        ('{' :: '{' :: (j ++ '}' :: '}' :: t))
      = '{' :: '{' :: (j ++ '}' :: '}' ::
          strings.replaceScan ('{' :: '{' :: (k ++ ['}', '}'])) v 0 t) := by
  have h1 : ('{' :: '{' :: (k ++ ['}', '}'])).isPrefixOf
      ('{' :: '{' :: (j ++ '}' :: '}' :: t)) = false := by
    cases hb : ('{' :: '{' :: (k ++ ['}', '}'])).isPrefixOf
      ('{' :: '{' :: (j ++ '}' :: '}' :: t))
    · rfl
    · exfalso
      apply hne
      simp only [List.isPrefixOf, Bool.and_eq_true, beq_self_eq_true, true_and] at hb
      exact (key_closing_unique k j t (fun c hc => (hk c hc).2)
        (fun c hc => (hj c hc).2) hb).symm
  have h2 : ('{' :: '{' :: (k ++ ['}', '}'])).isPrefixOf
      ('{' :: (j ++ '}' :: '}' :: t)) = false := by
    cases j with
    | nil => simp [List.isPrefixOf]
    | cons d ds =>
      have hd : d ≠ '{' := (hj d (List.mem_cons_self d ds)).1
      simp [List.isPrefixOf, Ne.symm hd]
  have h3 : ∀ c ∈ j ++ ['}', '}'], c ≠ '{' := by
    intro c hc
    rcases List.mem_append.mp hc with hc | hc
    · exact (hj c hc).1
    · simp only [List.mem_cons, List.mem_singleton, List.not_mem_nil, or_false, or_self] at hc
      rw [hc]
      decide
  have h4 := strings.replaceScan_free '{' ('{' :: (k ++ ['}', '}'])) v (j ++ ['}', '}']) t h3
  simp only [List.append_assoc, List.cons_append, List.nil_append] at h4
  rw [strings.replaceScan_step _ _ _ _ h1, strings.replaceScan_step _ _ _ _ h2, h4]

theorem replaceScan_hole_other (k j v : String) (t : List Char) (hne : j ≠ k)
    (hk : braceFree k = true) (hj : braceFree j = true) :
    strings.replaceScan (placeholder k).data v.data 0 ((placeholder j).data ++ t)
      = (placeholder j).data ++ strings.replaceScan (placeholder k).data v.data 0 t := by
  rw [braceFree_iff] at hk hj
  have hne2 : j.data ≠ k.data := fun h => hne (String.ext h)
  have := replaceScan_hole_other_chars k.data j.data v.data t hne2 hk hj
  simpa [placeholder_data] using this

theorem replaceScan_lit (k v text : String) (t : List Char) (h : braceFree text = true) :
    strings.replaceScan (placeholder k).data v.data 0 (text.data ++ t)
      = text.data ++ strings.replaceScan (placeholder k).data v.data 0 t := by
  rw [braceFree_iff] at h
  rw [placeholder_data]
  exact strings.replaceScan_free '{' _ _ _ _ (fun c hc => (h c hc).1)

theorem Replace_placeholder (tpl k v : String) :
    strings.Replace tpl (placeholder k) v
      = ⟨strings.replaceScan (placeholder k).data v.data 0 tpl.data⟩ := by
  rw [strings.Replace, if_neg (placeholder_data_ne_nil k)]

theorem replaceScan_renderTemplate (k v : String) (segs : List Segment)
    (hk : braceFree k = true) (hsegs : ∀ seg ∈ segs, seg.wellFormed = true) :
    strings.replaceScan (placeholder k).data v.data 0 (renderTemplate segs).data
      = (renderTemplate (segs.map (Segment.fill k v))).data := by
  induction segs with
  | nil => rfl
  | cons seg rest ih =>
    have hrest := ih (fun x hx => hsegs x (List.mem_cons_of_mem seg hx))
    have hseg : seg.wellFormed = true := hsegs seg (List.mem_cons_self seg rest)
    simp only [renderTemplate, List.map_cons, String.data_append]
    cases seg with
    | lit text =>
      rw [Segment.render, Segment.fill, Segment.render, replaceScan_lit k v text _ hseg, hrest]
    | hole key =>
      by_cases hkey : key = k
      · subst hkey
        rw [Segment.render, Segment.fill, if_pos rfl, Segment.render,
          replaceScan_hole_same, hrest]
      · rw [Segment.render, Segment.fill, if_neg hkey, Segment.render,
          replaceScan_hole_other k key v _ hkey hk hseg, hrest]

theorem Replace_renderTemplate (k v : String) (segs : List Segment)
    (hk : braceFree k = true) (hsegs : ∀ seg ∈ segs, seg.wellFormed = true) :
    strings.Replace (renderTemplate segs) (placeholder k) v
      = renderTemplate (segs.map (Segment.fill k v)) := by
  rw [Replace_placeholder]
  exact String.ext (replaceScan_renderTemplate k v segs hk hsegs)

theorem fill_wellFormed (k v : String) (segs : List Segment) (hv : braceFree v = true)
    (hsegs : ∀ seg ∈ segs, seg.wellFormed = true) :
    ∀ seg ∈ segs.map (Segment.fill k v), seg.wellFormed = true := by
  intro seg hseg
  obtain ⟨s0, hs0, rfl⟩ := List.mem_map.mp hseg
  have h0 := hsegs s0 hs0
  cases s0 with
  | lit text => exact h0
  | hole key =>
    by_cases hkey : key = k
    · simpa [Segment.fill, hkey, Segment.wellFormed] using hv
    · simpa [Segment.fill, hkey] using h0

theorem substitute_nil (segs : List Segment) : substitute [] segs = renderTemplate segs := by
  induction segs with
  | nil => rfl
  | cons seg rest ih =>
    cases seg <;> simp [substitute, renderTemplate, Segment.substitute, Segment.render,
      valueOf, ih]

theorem substitute_cons (k v : String) (data : List (String × String)) (segs : List Segment) :
    substitute ((k, v) :: data) segs = substitute data (segs.map (Segment.fill k v)) := by
  induction segs with
  | nil => rfl
  | cons seg rest ih =>
    simp only [substitute, List.map_cons, ih]
    congr 1
    cases seg with
    | lit text => rfl
    | hole key =>
      by_cases hkey : key = k
      · subst hkey
        simp [Segment.fill, Segment.substitute, valueOf]
      · have hb : (k == key) = false := by simpa using fun h : k = key => hkey h.symm
        simp [Segment.fill, hkey, Segment.substitute, valueOf, List.find?_cons, hb]

theorem queryHelper_cons (tpl k v : String) (data : List (String × String)) :
    queryHelper tpl ((k, v) :: data)
      = queryHelper (strings.Replace tpl (placeholder k) v) data := rfl

/-! ## Statement templating: properties of `queryHelper` -/

/-- C8: for a template that is a concatenation of brace-free literal segments and
placeholders `{{k}}` with brace-free keys, and a values map (its entries in any visiting
order) whose keys and values hold no brace, `queryHelper` equals the simultaneous
substitution: each placeholder whose key is in the map is replaced by its value, each
placeholder whose key is not in the map is left verbatim. -/
theorem queryHelper_simultaneous_substitution (segs : List Segment)
    (data : List (String × String))
    (hsegs : ∀ seg ∈ segs, seg.wellFormed = true)
    (hdata : ∀ kv ∈ data, braceFree kv.1 = true ∧ braceFree kv.2 = true) :
    queryHelper (renderTemplate segs) data = substitute data segs := by
  induction data generalizing segs with
  | nil => exact (substitute_nil segs).symm
  | cons kv rest ih =>
    obtain ⟨k, v⟩ := kv
    have hkv := hdata (k, v) (List.mem_cons_self _ _)
    rw [queryHelper_cons, Replace_renderTemplate k v segs hkv.1 hsegs, substitute_cons]
    exact ih _ (fill_wellFormed k v segs hkv.2 hsegs)
      (fun x hx => hdata x (List.mem_cons_of_mem _ hx))

/-- Witness of C8: a creation statement with two known placeholders and an unknown one. -/
theorem queryHelper_simultaneous_substitution_witness :
    renderTemplate [.lit "CREATE ROLE ", .hole "name", .lit " PASSWORD ", .hole "password",
        .lit " UNTIL ", .hole "expiration", .lit ";"]
      = "CREATE ROLE \x7b\x7bname\x7d\x7d PASSWORD \x7b\x7bpassword\x7d\x7d UNTIL \x7b\x7bexpiration\x7d\x7d;" ∧
    queryHelper (renderTemplate [.lit "CREATE ROLE ", .hole "name", .lit " PASSWORD ",
        .hole "password", .lit " UNTIL ", .hole "expiration", .lit ";"])
        [("password", "pw"), ("name", "bob")]
      = substitute [("password", "pw"), ("name", "bob")]
          [.lit "CREATE ROLE ", .hole "name", .lit " PASSWORD ", .hole "password",
            .lit " UNTIL ", .hole "expiration", .lit ";"] ∧
    substitute [("password", "pw"), ("name", "bob")]
        [.lit "CREATE ROLE ", .hole "name", .lit " PASSWORD ", .hole "password",
          .lit " UNTIL ", .hole "expiration", .lit ";"]
      = "CREATE ROLE bob PASSWORD pw UNTIL \x7b\x7bexpiration\x7d\x7d;" :=
  ⟨by decide,
    queryHelper_simultaneous_substitution
      [.lit "CREATE ROLE ", .hole "name", .lit " PASSWORD ", .hole "password",
        .lit " UNTIL ", .hole "expiration", .lit ";"]
      [("password", "pw"), ("name", "bob")] (by decide) (by decide),
    by decide⟩

/-- C9: when for no key `k` of the values map the string `{{k}}` occurs in the template,
`queryHelper` returns the template unchanged; in particular with the empty map. The
function is total: it returns a string on every input. -/
theorem queryHelper_absent_keys (tpl : String) (data : List (String × String)) :
    ((∀ kv ∈ data, ¬ strings.Contains tpl (placeholder kv.1)) → queryHelper tpl data = tpl) ∧
    queryHelper tpl [] = tpl := by
  refine ⟨?_, rfl⟩
  induction data with
  | nil => intro _; rfl
  | cons kv rest ih =>
    intro h
    obtain ⟨k, v⟩ := kv
    have hk : ¬ (placeholder k).data <:+: tpl.data := h (k, v) (List.mem_cons_self _ _)
    rw [queryHelper_cons, Replace_placeholder, strings.replaceScan_absent _ _ _ hk]
    exact ih (fun x hx => h x (List.mem_cons_of_mem _ hx))

/-- Witness of C9: the only key of the map is not a placeholder of the template. -/
theorem queryHelper_absent_keys_witness :
    queryHelper "DROP ROLE \x7b\x7bname\x7d\x7d;" [("username", "bob")]
      = "DROP ROLE \x7b\x7bname\x7d\x7d;" :=
  (queryHelper_absent_keys "DROP ROLE \x7b\x7bname\x7d\x7d;" [("username", "bob")]).1
    (by decide)

/-! ## The mock backend: initialisation, renewal and closing -/

namespace GoMap

variable {V : Type}

theorem contains_iff_mem (l : List (String × V)) (j : String) :
    contains (some l) j = true ↔ j ∈ l.map Prod.fst := by
  induction l with
  | nil => simp [contains, lookup]
  | cons a t ih =>
    simp only [contains, lookup] at ih ⊢
    by_cases ha : a.1 = j
    · simp [List.find?_cons, ha]
    · have hb : (a.1 == j) = false := by simpa using ha
      rw [List.find?_cons, hb, List.map_cons, List.mem_cons]
      simp only [ih]
      constructor
      · exact fun h => Or.inr h
      · rintro (h | h)
        · exact absurd h.symm ha
        · exact h

theorem mem_keys (m : GoMap V) (j : String) : j ∈ keys m ↔ contains m j = true := by
  cases m with
  | none => simp [keys, contains, lookup]
  | some l => rw [contains_iff_mem, keys, List.mem_dedup]

theorem nodup_keys (m : GoMap V) : (keys m).Nodup := by
  cases m with
  | none => exact List.nodup_nil
  | some l => exact List.nodup_dedup _

/-- A map has length one exactly when it has one key and no other. -/
theorem len_eq_one_iff (m : GoMap V) :
    len m = 1 ↔ ∃ k : String, ∀ j : String, contains m j = true ↔ j = k := by
  constructor
  · intro h
    obtain ⟨k, hk⟩ := List.length_eq_one.mp h
    refine ⟨k, fun j => ?_⟩
    rw [← mem_keys, hk, List.mem_singleton]
  · rintro ⟨k, hk⟩
    have hperm : List.Perm (keys m) [k] := by
      rw [List.perm_ext_iff_of_nodup (nodup_keys m) (List.nodup_singleton k)]
      intro j
      rw [mem_keys, hk, List.mem_singleton]
    simpa [len] using hperm.length_eq

end GoMap

theorem mockPlugin.Initialize_eq (m : mockPlugin) (conf : GoMap GoValue) (v : Bool) :
    m.Initialize conf v = .returned
      (if GoMap.len conf = 1 then none else some (errors.New "err"), m) := by
  unfold mockPlugin.Initialize
  by_cases h : GoMap.len conf = 1 <;> simp [h]

/-- C11: `Initialize` always returns, leaving the state as it was, and it succeeds if and
only if the connection-details map has exactly one entry (one key and no other); so
`Initialize({"test": 1}, true)` succeeds, `Initialize({}, true)` fails, and the outcome is
the same for both values of `verifyConnection`. -/
theorem Initialize_succeeds_iff (m : mockPlugin) (conf : GoMap GoValue)
    (verifyConnection : Bool) :
    (∃ r : Option error,
      m.Initialize conf verifyConnection = .returned (r, m) ∧
      (r = none ↔ GoMap.len conf = 1) ∧
      (r = none ↔ ∃ k : String, ∀ j : String, GoMap.contains conf j = true ↔ j = k)) ∧
    m.Initialize (some [("test", GoValue.int 1)]) true = .returned (none, m) ∧
    (∃ err : error, m.Initialize (some []) true = .returned (some err, m)) ∧
    m.Initialize conf true = m.Initialize conf false := by
  refine ⟨⟨_, mockPlugin.Initialize_eq m conf verifyConnection, ?_, ?_⟩, ?_,
    ⟨errors.New "err", ?_⟩, ?_⟩
  · by_cases h : GoMap.len conf = 1 <;> simp [h]
  · rw [← GoMap.len_eq_one_iff]
    by_cases h : GoMap.len conf = 1 <;> simp [h]
  · rw [mockPlugin.Initialize_eq, if_pos (by decide)]
  · rw [mockPlugin.Initialize_eq, if_neg (by decide)]
  · rw [mockPlugin.Initialize_eq, mockPlugin.Initialize_eq]

/-- Witness of C11: a map with two entries is rejected on a backend that holds a user. -/
theorem Initialize_succeeds_iff_witness :
    ∃ err : error,
      mockPlugin.Initialize ⟨some [("bob", [""])]⟩
          (some [("host", GoValue.str "db"), ("port", GoValue.int 5432)]) false
        = .returned (some err, ⟨some [("bob", [""])]⟩) := by
  obtain ⟨r, hr, hlen, _⟩ := (Initialize_succeeds_iff ⟨some [("bob", [""])]⟩
    (some [("host", GoValue.str "db"), ("port", GoValue.int 5432)]) false).1
  cases r with
  | none => exact absurd (hlen.mp rfl) (by decide)
  | some err => exact ⟨err, hr⟩

/-- C12: when `Initialize` rejects a connection-details map, the backend state after the
failed call is exactly the state before it, and a following `Initialize` with a map of
exactly one entry succeeds on that state. -/
theorem Initialize_failure_keeps_state (m m1 : mockPlugin) (conf : GoMap GoValue)
    (verifyConnection : Bool) (err : error)
    (hrejected : m.Initialize conf verifyConnection = .returned (some err, m1)) :
    m1 = m ∧
    ∀ (conf2 : GoMap GoValue) (verify2 : Bool), GoMap.len conf2 = 1 →
      m1.Initialize conf2 verify2 = .returned (none, m1) := by
  rw [mockPlugin.Initialize_eq] at hrejected
  simp only [Exec.returned.injEq, Prod.mk.injEq] at hrejected
  refine ⟨hrejected.2.symm, fun conf2 verify2 h2 => ?_⟩
  rw [mockPlugin.Initialize_eq, if_pos h2]

/-- Witness of C12: the empty map is rejected on a fresh plugin, then `{"test": 1}` is
accepted. -/
theorem Initialize_failure_keeps_state_witness :
    mockPlugin.Initialize ⟨GoMap.make⟩ (some [("test", GoValue.int 1)]) true
      = .returned (none, ⟨GoMap.make⟩) :=
  (Initialize_failure_keeps_state ⟨GoMap.make⟩ ⟨GoMap.make⟩ (some []) true (errors.New "err")
    (by decide)).2 (some [("test", GoValue.int 1)]) true (by decide)

/-- C13: `Close` is idempotent: on every state it returns no error, and a second `Close`
returns no error either and leaves the state equal to the one after the first `Close`. -/
theorem Close_idempotent (m : mockPlugin) :
    ∃ m1 : mockPlugin,
      m.Close = .returned (none, m1) ∧ m1.Close = .returned (none, m1) :=
  ⟨⟨none⟩, rfl, rfl⟩

/-- C17: `RenewUser` never changes the backend state: whatever the state, the username and
the expiration, and whether it succeeds or fails, it returns with the users map (keys and
stored password lists) exactly as before. -/
theorem RenewUser_keeps_state (m : mockPlugin) (st : Statements) (username : String)
    (e : Time) :
    ∃ r : Option error, m.RenewUser st username e = .returned (r, m) :=
  ⟨_, mockPlugin.RenewUser_eq m st username e⟩

/-! ## The backend factory: what the builtin families are built from -/

/-- C16: for each builtin family `BuiltinFactory` returns a metrics middleware whose
`next` is the backend of exactly that family, its connection producer carrying the given
config, and whose `typeStr` is `next.Type()`; the credentials producer has
`displayNameLen` 23 and `usernameLen` 63 for "postgres", 4 and 16 for "mysql", in both
cases the display-name limit strictly below the identifier limit. -/
theorem BuiltinFactory_wraps_requested_family {σ : Type} (conf : DatabaseConfig) (w : σ) :
    (conf.DatabaseType = "postgres" → ∃ creds : sqlCredentialsProducer,
      BuiltinFactory conf w = (⟨some (.databaseMetricsMiddleware (.PostgreSQL ⟨conf⟩ creds)
        (DatabaseType.Type_ (.PostgreSQL ⟨conf⟩ creds))), none⟩, w) ∧
      creds.displayNameLen = 23 ∧ creds.usernameLen = 63 ∧
      creds.displayNameLen < creds.usernameLen) ∧
    (conf.DatabaseType = "mysql" → ∃ creds : sqlCredentialsProducer,
      BuiltinFactory conf w = (⟨some (.databaseMetricsMiddleware (.MySQL ⟨conf⟩ creds)
        (DatabaseType.Type_ (.MySQL ⟨conf⟩ creds))), none⟩, w) ∧
      creds.displayNameLen = 4 ∧ creds.usernameLen = 16 ∧
      creds.displayNameLen < creds.usernameLen) ∧
    (conf.DatabaseType = "cassandra" →
      BuiltinFactory conf w = (⟨some (.databaseMetricsMiddleware (.Cassandra ⟨conf⟩ ⟨⟩)
        (DatabaseType.Type_ (.Cassandra ⟨conf⟩ ⟨⟩))), none⟩, w)) ∧
    (∀ db : DatabaseType, BuiltinFactory conf w = (⟨some db, none⟩, w) →
      ∃ next : DatabaseType, db = .databaseMetricsMiddleware next next.Type_) := by
  refine ⟨fun h => ⟨⟨23, 63⟩, ?_, rfl, rfl, by decide⟩,
    fun h => ⟨⟨4, 16⟩, ?_, rfl, rfl, by decide⟩, fun h => ?_, fun db hdb => ?_⟩
  · simp [BuiltinFactory, postgreSQLTypeName, h]
  · simp [BuiltinFactory, postgreSQLTypeName, mySQLTypeName, h]
  · simp [BuiltinFactory, postgreSQLTypeName, mySQLTypeName, cassandraTypeName, h]
  · unfold BuiltinFactory at hdb
    split_ifs at hdb
    · simp only [Prod.mk.injEq, FactoryReturn.mk.injEq, Option.some.injEq] at hdb
      exact ⟨_, hdb.1.1.symm⟩
    · simp only [Prod.mk.injEq, FactoryReturn.mk.injEq, Option.some.injEq] at hdb
      exact ⟨_, hdb.1.1.symm⟩
    · simp only [Prod.mk.injEq, FactoryReturn.mk.injEq, Option.some.injEq] at hdb
      exact ⟨_, hdb.1.1.symm⟩
    · simp at hdb

/-- Witness of C16: a "mysql" config. -/
theorem BuiltinFactory_wraps_requested_family_witness :
    ∃ creds : sqlCredentialsProducer,
      BuiltinFactory ⟨"mysql", some [("host", GoValue.str "db")], 4, 2, 0, "", ""⟩ (0 : Nat)
        = (⟨some (.databaseMetricsMiddleware
            (.MySQL ⟨⟨"mysql", some [("host", GoValue.str "db")], 4, 2, 0, "", ""⟩⟩ creds)
            (DatabaseType.Type_
              (.MySQL ⟨⟨"mysql", some [("host", GoValue.str "db")], 4, 2, 0, "", ""⟩⟩ creds))),
            none⟩, 0) ∧
      creds.displayNameLen = 4 ∧ creds.usernameLen = 16 ∧
      creds.displayNameLen < creds.usernameLen :=
  (BuiltinFactory_wraps_requested_family
    ⟨"mysql", some [("host", GoValue.str "db")], 4, 2, 0, "", ""⟩ (0 : Nat)).2.1 (by decide)

/-! ## Statement templating: the order in which the map is visited -/

theorem queryHelper_renderTemplate (segs : List Segment) (data : List (String × String))
    (hsegs : ∀ seg ∈ segs, seg.wellFormed = true)
    (hdata : ∀ kv ∈ data, braceFree kv.1 = true ∧ braceFree kv.2 = true) :
    queryHelper (renderTemplate segs) data = substitute data segs := by
  induction data generalizing segs with
  | nil => exact (substitute_nil segs).symm
  | cons kv rest ih =>
    obtain ⟨k, v⟩ := kv
    have hkv := hdata (k, v) (List.mem_cons_self _ _)
    rw [queryHelper_cons, Replace_renderTemplate k v segs hkv.1 hsegs, substitute_cons]
    exact ih _ (fill_wellFormed k v segs hkv.2 hsegs)
      (fun x hx => hdata x (List.mem_cons_of_mem _ hx))

theorem valueOf_perm {d1 d2 : List (String × String)} (hp : d1.Perm d2)
    (hn : (d1.map Prod.fst).Nodup) (k : String) : valueOf d1 k = valueOf d2 k := by
  induction hp with
  | nil => rfl
  | cons x _ ih =>
    have h := ih (List.nodup_cons.mp hn).2
    simp only [valueOf, List.find?_cons] at h ⊢
    cases x.1 == k
    · exact h
    · rfl
  | swap x y l =>
    have hxy : y.1 ≠ x.1 := by
      intro h
      have := (List.nodup_cons.mp hn).1
      simp [h] at this
    simp only [valueOf, List.find?_cons]
    cases hy : y.1 == k <;> cases hx : x.1 == k
    · rfl
    · rfl
    · rfl
    · exact absurd ((beq_iff_eq.mp hy).trans (beq_iff_eq.mp hx).symm) hxy
  | trans h1 _ ih1 ih2 =>
    exact (ih1 hn).trans (ih2 (((h1.map Prod.fst).nodup_iff).mp hn))

theorem substitute_congr (d1 d2 : List (String × String)) (segs : List Segment)
    (h : ∀ k : String, valueOf d1 k = valueOf d2 k) : substitute d1 segs = substitute d2 segs := by
  induction segs with
  | nil => rfl
  | cons seg rest ih =>
    cases seg with
    | lit text => simp only [substitute, Segment.substitute, ih]
    | hole key => simp only [substitute, Segment.substitute, ih, h key]

/-- C15, as stated, fails: with the value of one key holding the placeholder of another,
the two visiting orders of the same two entries give different strings. -/
theorem queryHelper_order_dependent :
    queryHelper "\x7b\x7ba\x7d\x7d" [("a", "\x7b\x7bb\x7d\x7d"), ("b", "x")] = "x" ∧
    queryHelper "\x7b\x7ba\x7d\x7d" [("b", "x"), ("a", "\x7b\x7bb\x7d\x7d")]
      = "\x7b\x7bb\x7d\x7d" ∧
    queryHelper "\x7b\x7ba\x7d\x7d" [("a", "\x7b\x7bb\x7d\x7d"), ("b", "x")]
      ≠ queryHelper "\x7b\x7ba\x7d\x7d" [("b", "x"), ("a", "\x7b\x7bb\x7d\x7d")] := by
  decide

/-- C15, amended: for a template that is a concatenation of brace-free literal segments
and placeholders with brace-free keys, and a values map whose keys and values hold no
brace, the result of `queryHelper` is the same for any two visiting orders of the entries
of the map (entries with pairwise distinct keys, one order a permutation of the other). -/
theorem queryHelper_order_independent (segs : List Segment)
    (data1 data2 : List (String × String))
    (hsegs : ∀ seg ∈ segs, seg.wellFormed = true)
    (hdata : ∀ kv ∈ data1, braceFree kv.1 = true ∧ braceFree kv.2 = true)
    (hkeys : (data1.map Prod.fst).Nodup)
    (horder : data1.Perm data2) :
    queryHelper (renderTemplate segs) data1 = queryHelper (renderTemplate segs) data2 := by
  have hdata2 : ∀ kv ∈ data2, braceFree kv.1 = true ∧ braceFree kv.2 = true :=
    fun kv hkv => hdata kv (horder.mem_iff.mpr hkv)
  rw [queryHelper_renderTemplate segs data1 hsegs hdata,
    queryHelper_renderTemplate segs data2 hsegs hdata2]
  exact substitute_congr data1 data2 segs (valueOf_perm horder hkeys)

/-- Witness of the amended C15: two orders of a map with the keys "name" and "password". -/
theorem queryHelper_order_independent_witness :
    queryHelper (renderTemplate [.lit "CREATE ROLE ", .hole "name", .lit " PASSWORD ",
        .hole "password", .lit ";"]) [("password", "pw"), ("name", "bob")]
      = queryHelper (renderTemplate [.lit "CREATE ROLE ", .hole "name", .lit " PASSWORD ",
        .hole "password", .lit ";"]) [("name", "bob"), ("password", "pw")] :=
  queryHelper_order_independent
    [.lit "CREATE ROLE ", .hole "name", .lit " PASSWORD ", .hole "password", .lit ";"]
    [("password", "pw"), ("name", "bob")] [("name", "bob"), ("password", "pw")]
    (by decide) (by decide) (by decide) (List.Perm.swap _ _ _)

/-- With brace-free keys and values but a template that is not a concatenation of
brace-free literals and placeholders, the visiting order still matters. -/
theorem queryHelper_template_order_matters :
    queryHelper "\x7b\x7b\x7b\x7ba\x7d\x7db\x7d\x7d" [("a", "x"), ("xb", "y")] = "y" ∧
    queryHelper "\x7b\x7b\x7b\x7ba\x7d\x7db\x7d\x7d" [("xb", "y"), ("a", "x")]
      = "\x7b\x7bxb\x7d\x7d" := by
  decide

/-- With a well-formed template and brace-free values but a key that holds braces, the
visiting order still matters. -/
theorem queryHelper_key_order_matters :
    queryHelper "\x7b\x7ba\x7d\x7d\x7b\x7bb\x7d\x7d"
        [("a\x7d\x7d\x7b\x7bb", "X"), ("a", "Y")] = "X" ∧
    queryHelper "\x7b\x7ba\x7d\x7d\x7b\x7bb\x7d\x7d"
        [("a", "Y"), ("a\x7d\x7d\x7b\x7bb", "X")] = "Y\x7b\x7bb\x7d\x7d" := by
  decide

/-! ## The mock backend: sequences of calls -/

theorem GoMap.contains_cons_filter {V : Type} (l : List (String × V)) (d u : String) (v : V) :
    GoMap.contains (some ((d, v) :: l.filter (fun x => x.1 != d))) u
      = (d == u || GoMap.contains (some l) u) := by
  by_cases h : d = u
  · subst h
    simp [GoMap.contains, GoMap.lookup]
  · have hb : (d == u) = false := by simpa using h
    have hl := GoMap.lookup_filter_other l d u (fun hu => h hu.symm)
    simp only [GoMap.contains, GoMap.lookup, List.find?_cons, hb, Bool.false_or] at hl ⊢
    rw [hl]

theorem GoMap.contains_filter {V : Type} (l : List (String × V)) (d u : String) :
    GoMap.contains (some (l.filter (fun x => x.1 != d))) u
      = (GoMap.contains (some l) u && !(d == u)) := by
  by_cases h : d = u
  · subst h
    simp [GoMap.contains, GoMap.lookup_filter_self]
  · have hb : (d == u) = false := by simpa using h
    have hl := GoMap.lookup_filter_other l d u (fun hu => h hu.symm)
    simp [GoMap.contains, hl, hb]

namespace mockPlugin

/-- One call other than `Close` on an allocated users map: it returns, the map stays
allocated, and the keys change only by a successful `CreateUser` or `RevokeUser`. -/
theorem call_allocated (l : List (String × List String)) (c : Call)
    (hc : c.isClose = false) :
    ∃ (o : Outcome) (l1 : List (String × List String)),
      call ⟨some l⟩ c = .returned (o, ⟨some l1⟩) ∧ o.isPanic = false ∧
      (∀ u : String, GoMap.contains (some l1) u
        = (isCreateOf u (c, o) || (GoMap.contains (some l) u && !isRevokeOf u (c, o)))) ∧
      (∀ u : String, isCreateOf u (c, o) = true → u ≠ "") := by
  cases c with
  | Initialize conf v =>
    refine ⟨.status (if GoMap.len conf = 1 then none else some (errors.New "err")), l,
      by rw [call, Initialize_eq], rfl, ?_, ?_⟩ <;> simp [isCreateOf, isRevokeOf]
  | CreateUser st conf e =>
    by_cases h : conf.DisplayName = "" ∨ e.IsZero = true ∨
        GoMap.contains (some l) conf.DisplayName = true
    · refine ⟨.created ⟨"", "", some (errors.New "err")⟩, l,
        by rw [call, CreateUser_err ⟨some l⟩ st conf e h], rfl, ?_, ?_⟩ <;>
        simp [isCreateOf, isRevokeOf]
    · have hn : conf.DisplayName ≠ "" := fun hn => h (Or.inl hn)
      have he : e.IsZero = false := by
        cases he : e.IsZero
        · rfl
        · exact absurd (Or.inr (Or.inl he)) h
      have hf : GoMap.contains (some l) conf.DisplayName = false := by
        cases hf : GoMap.contains (some l) conf.DisplayName
        · rfl
        · exact absurd (Or.inr (Or.inr hf)) h
      refine ⟨.created ⟨conf.DisplayName, "test", none⟩,
        (conf.DisplayName, [""]) :: l.filter (fun x => x.1 != conf.DisplayName),
        by rw [call, CreateUser_ok l st conf e hn he hf], rfl, ?_, ?_⟩
      · intro u
        rw [GoMap.contains_cons_filter]
        simp [isCreateOf, isRevokeOf]
      · intro u hu
        have : conf.DisplayName = u := by simpa [isCreateOf] using hu
        exact this ▸ hn
  | RenewUser st username e =>
    refine ⟨.status (if username = "" ∨ e.IsZero = true ∨
        GoMap.contains (some l) username = false then some (errors.New "err") else none), l,
      by rw [call, RenewUser_eq], rfl, ?_, ?_⟩ <;> simp [isCreateOf, isRevokeOf]
  | RevokeUser st username =>
    by_cases h : username = "" ∨ GoMap.contains (some l) username = false
    · refine ⟨.status (some (errors.New "err")), l,
        by rw [call, RevokeUser_eq, if_pos h], rfl, ?_, ?_⟩ <;>
        simp [isCreateOf, isRevokeOf]
    · refine ⟨.status none, l.filter (fun x => x.1 != username),
        by rw [call, RevokeUser_eq, if_neg h]; rfl, rfl, ?_, ?_⟩
      · intro u
        rw [GoMap.contains_filter]
        simp [isCreateOf, isRevokeOf]
      · simp [isCreateOf]
  | Close => simp [Call.isClose] at hc

theorem call_forget (m : mockPlugin) (c : Call) : m.call c.forget = m.call c := by
  cases c <;> rfl

theorem run_forget (m : mockPlugin) (calls : List Call) :
    m.run (calls.map Call.forget) = m.run calls := by
  induction calls generalizing m with
  | nil => rfl
  | cons c rest ih =>
    simp only [List.map_cons, run, call_forget]
    cases m.call c with
    | panicked msg => rfl
    | returned r => simp only [ih]

end mockPlugin

/-- A sequence of calls without `Close` on an allocated users map: every call returns, the
map stays allocated, and the keys at the end are those created in the sequence and not
revoked since, together with the initial keys never revoked. -/
theorem mockPlugin.run_allocated (calls : List Call) (l0 : List (String × List String))
    (hnc : ∀ c ∈ calls, c.isClose = false) :
    ((mockPlugin.run ⟨some l0⟩ calls).1.length = calls.length) ∧
    (∀ o ∈ (mockPlugin.run ⟨some l0⟩ calls).1, o.isPanic = false) ∧
    (∃ l : List (String × List String), (mockPlugin.run ⟨some l0⟩ calls).2 = ⟨some l⟩) ∧
    (∀ u : String, GoMap.contains (mockPlugin.run ⟨some l0⟩ calls).2.users u
      = (createdNotRevoked u (calls.zip (mockPlugin.run ⟨some l0⟩ calls).1) ||
          (GoMap.contains (some l0) u &&
            (calls.zip (mockPlugin.run ⟨some l0⟩ calls).1).all (fun e => !isRevokeOf u e)))) ∧
    (∀ u : String,
      createdNotRevoked u (calls.zip (mockPlugin.run ⟨some l0⟩ calls).1) = true → u ≠ "") := by
  induction calls generalizing l0 with
  | nil =>
    refine ⟨rfl, ?_, ⟨l0, rfl⟩, ?_, ?_⟩
    · intro o ho
      simp [mockPlugin.run] at ho
    · intro u
      simp [mockPlugin.run, createdNotRevoked]
    · intro u hu
      simp [mockPlugin.run, createdNotRevoked] at hu
  | cons c rest ih =>
    obtain ⟨o, l1, hcall, hpanic, hkeys, hname⟩ :=
      mockPlugin.call_allocated l0 c (hnc c (List.mem_cons_self c rest))
    obtain ⟨hlen, hnp, hal, hlive, hne⟩ :=
      ih l1 (fun x hx => hnc x (List.mem_cons_of_mem c hx))
    have hrun : mockPlugin.run ⟨some l0⟩ (c :: rest)
        = (o :: (mockPlugin.run ⟨some l1⟩ rest).1, (mockPlugin.run ⟨some l1⟩ rest).2) := by
      rw [mockPlugin.run, hcall]
    rw [hrun]
    refine ⟨by simp [hlen], ?_, hal, ?_, ?_⟩
    · intro x hx
      rcases List.mem_cons.mp hx with rfl | hx
      · exact hpanic
      · exact hnp x hx
    · intro u
      show GoMap.contains (mockPlugin.run ⟨some l1⟩ rest).2.users u
        = ((createdNotRevoked u (rest.zip (mockPlugin.run ⟨some l1⟩ rest).1) ||
            (isCreateOf u (c, o) &&
              (rest.zip (mockPlugin.run ⟨some l1⟩ rest).1).all (fun e => !isRevokeOf u e))) ||
          (GoMap.contains (some l0) u && (!isRevokeOf u (c, o) &&
            (rest.zip (mockPlugin.run ⟨some l1⟩ rest).1).all (fun e => !isRevokeOf u e))))
      rw [hlive u, hkeys u]
      generalize createdNotRevoked u (rest.zip (mockPlugin.run ⟨some l1⟩ rest).1) = b1
      generalize (rest.zip (mockPlugin.run ⟨some l1⟩ rest).1).all
        (fun e => !isRevokeOf u e) = b2
      generalize isCreateOf u (c, o) = b3
      generalize isRevokeOf u (c, o) = b4
      generalize GoMap.contains (some l0) u = b5
      cases b1 <;> cases b2 <;> cases b3 <;> cases b4 <;> cases b5 <;> rfl
    · intro u hu
      have hu2 : (createdNotRevoked u (rest.zip (mockPlugin.run ⟨some l1⟩ rest).1) ||
          (isCreateOf u (c, o) &&
            (rest.zip (mockPlugin.run ⟨some l1⟩ rest).1).all (fun e => !isRevokeOf u e)))
          = true := hu
      rw [Bool.or_eq_true, Bool.and_eq_true] at hu2
      rcases hu2 with hu | hu
      · exact hne u hu
      · exact hname u hu.1

/-- C18: from the empty users map, any finite sequence of `Initialize`, `CreateUser`,
`RenewUser` and `RevokeUser` calls (no `Close`) runs without a panic; at the end every key
of the users map is a non-empty string, and a username is a key exactly when a successful
`CreateUser` of it in the sequence is followed by no successful `RevokeUser` of it; and
two sequences that differ only in their `statements` and `RoleName` arguments give the
same outcomes and the same final state. -/
theorem reachable_keys_follow_history (calls : List Call)
    (hnoClose : ∀ c ∈ calls, c.isClose = false) :
    (mockPlugin.run ⟨GoMap.make⟩ calls).1.length = calls.length ∧
    (∀ o ∈ (mockPlugin.run ⟨GoMap.make⟩ calls).1, o.isPanic = false) ∧
    (∀ u : String,
      GoMap.contains (mockPlugin.run ⟨GoMap.make⟩ calls).2.users u = true → u ≠ "") ∧
    (∀ u : String, GoMap.contains (mockPlugin.run ⟨GoMap.make⟩ calls).2.users u
      = createdNotRevoked u (calls.zip (mockPlugin.run ⟨GoMap.make⟩ calls).1)) ∧
    (∀ calls2 : List Call, calls2.map Call.forget = calls.map Call.forget →
      mockPlugin.run ⟨GoMap.make⟩ calls2 = mockPlugin.run ⟨GoMap.make⟩ calls) := by
  obtain ⟨hlen, hnp, _, hlive, hne⟩ := mockPlugin.run_allocated calls [] hnoClose
  have hkey : ∀ u : String, GoMap.contains (mockPlugin.run ⟨GoMap.make⟩ calls).2.users u
      = createdNotRevoked u (calls.zip (mockPlugin.run ⟨GoMap.make⟩ calls).1) := by
    intro u
    have h := hlive u
    simp only [GoMap.contains, GoMap.lookup, List.find?_nil, Option.map_none',
      Option.isSome_none, Bool.false_and, Bool.or_false] at h
    exact h
  refine ⟨hlen, hnp, ?_, hkey, ?_⟩
  · intro u hu
    rw [hkey u] at hu
    exact hne u hu
  · intro calls2 h2
    rw [← mockPlugin.run_forget _ calls2, h2, mockPlugin.run_forget]

/-- Witness of C18: create "test", renew it, revoke it, create "bob"; only "bob" is a key
at the end. -/
theorem reachable_keys_follow_history_witness :
    GoMap.contains (mockPlugin.run ⟨GoMap.make⟩
      [.Initialize (some [("test", GoValue.int 1)]) true,
        .CreateUser ⟨"", "", "", ""⟩ ⟨"test", "test"⟩ ⟨63000000060, 0⟩,
        .RenewUser ⟨"", "", "", ""⟩ "test" ⟨63000000120, 0⟩,
        .RevokeUser ⟨"", "", "", ""⟩ "test",
        .CreateUser ⟨"", "", "", ""⟩ ⟨"bob", "admin"⟩ ⟨63000000060, 0⟩]).2.users "test"
      = false ∧
    GoMap.contains (mockPlugin.run ⟨GoMap.make⟩
      [.Initialize (some [("test", GoValue.int 1)]) true,
        .CreateUser ⟨"", "", "", ""⟩ ⟨"test", "test"⟩ ⟨63000000060, 0⟩,
        .RenewUser ⟨"", "", "", ""⟩ "test" ⟨63000000120, 0⟩,
        .RevokeUser ⟨"", "", "", ""⟩ "test",
        .CreateUser ⟨"", "", "", ""⟩ ⟨"bob", "admin"⟩ ⟨63000000060, 0⟩]).2.users "bob"
      = true :=
  ⟨((reachable_keys_follow_history
      [.Initialize (some [("test", GoValue.int 1)]) true,
        .CreateUser ⟨"", "", "", ""⟩ ⟨"test", "test"⟩ ⟨63000000060, 0⟩,
        .RenewUser ⟨"", "", "", ""⟩ "test" ⟨63000000120, 0⟩,
        .RevokeUser ⟨"", "", "", ""⟩ "test",
        .CreateUser ⟨"", "", "", ""⟩ ⟨"bob", "admin"⟩ ⟨63000000060, 0⟩]
      (by decide)).2.2.2.1 "test").trans (by decide),
    by decide⟩
